import Mathlib

/-!
Shallow embedding of the delegation and streaming orchestration engine of the
kitn-ai/registry repository, together with proofs about its behaviour.

Numbers that are TypeScript `number` values are modelled as `Nat` where the
source only ever produces non-negative integers (token counts, durations),
and as `Rat` where fractional values occur (costs).  Fallible asynchronous
calls are modelled as `Except` values supplied by the caller; thrown
JavaScript values are modelled by the `Thrown` type.
-/

namespace KitnRegistry

/-! ## UsageInfo and mergeUsage (packages/core/src/types.ts) -/

structure UsageInfo where
  inputTokens : Nat
  outputTokens : Nat
  totalTokens : Nat
  cost : Option Rat
  durationMs : Nat
  deriving Repr, DecidableEq

/-- The `merged` accumulator update of one loop iteration of `mergeUsage`. -/
def mergeStep (merged u : UsageInfo) : UsageInfo :=
  { inputTokens := merged.inputTokens + u.inputTokens
    outputTokens := merged.outputTokens + u.outputTokens
    totalTokens := merged.totalTokens + u.totalTokens
    cost :=
      match u.cost with
      | none => merged.cost
      | some c => some (merged.cost.getD 0 + c)
    durationMs :=
      if u.durationMs > merged.durationMs then u.durationMs else merged.durationMs }

/-- `mergeUsage(...usages)` from types.ts: fold the loop body over the
variadic argument list starting from the zero record. -/
def mergeUsage (usages : List UsageInfo) : UsageInfo :=
  usages.foldl mergeStep
    { inputTokens := 0, outputTokens := 0, totalTokens := 0, cost := none, durationMs := 0 }

/-- `mergeUsage` viewed as a binary operation, `mergeUsage(a, b)`. -/
def mergeUsage2 (a b : UsageInfo) : UsageInfo := mergeUsage [a, b]

/-- Cost combination as the spec words it: the sum of the non-null operand
costs, remaining null only when every operand cost is null. -/
def costMergeSpec : Option Rat → Option Rat → Option Rat
  | none, none => none
  | some a, none => some a
  | none, some b => some b
  | some a, some b => some (a + b)

/-- Closed form of the binary merge. -/
theorem mergeUsage2_eq (a b : UsageInfo) :
    mergeUsage2 a b =
      { inputTokens := a.inputTokens + b.inputTokens
        outputTokens := a.outputTokens + b.outputTokens
        totalTokens := a.totalTokens + b.totalTokens
        cost := costMergeSpec a.cost b.cost
        durationMs := max a.durationMs b.durationMs } := by
  rcases a with ⟨ai, ao, att, ac, ad⟩
  rcases b with ⟨bi, bo, bt, bc, bd⟩
  rcases ac with _ | ca <;> rcases bc with _ | cb <;>
    simp [mergeUsage2, mergeUsage, mergeStep, costMergeSpec, Option.getD] <;>
    split_ifs <;> omega

theorem costMergeSpec_comm (a b : Option Rat) : costMergeSpec a b = costMergeSpec b a := by
  rcases a with _ | a <;> rcases b with _ | b <;> simp [costMergeSpec] <;> ring

theorem costMergeSpec_assoc (a b c : Option Rat) :
    costMergeSpec (costMergeSpec a b) c = costMergeSpec a (costMergeSpec b c) := by
  rcases a with _ | a <;> rcases b with _ | b <;> rcases c with _ | c <;>
    simp [costMergeSpec] <;> ring

/-- Claim C6: `mergeUsage`, viewed as a binary operation on `UsageInfo`, is
associative and commutative; its token fields are the sums of the operands'
fields, its `durationMs` is the maximum of the operands' durations, and its
cost is the sum of the non-null operand costs, remaining null only when both
operand costs are null. -/
theorem C6_mergeUsage_algebra :
    (∀ a b c : UsageInfo, mergeUsage2 (mergeUsage2 a b) c = mergeUsage2 a (mergeUsage2 b c)) ∧
    (∀ a b : UsageInfo, mergeUsage2 a b = mergeUsage2 b a) ∧
    (∀ a b : UsageInfo,
      (mergeUsage2 a b).inputTokens = a.inputTokens + b.inputTokens ∧
      (mergeUsage2 a b).outputTokens = a.outputTokens + b.outputTokens ∧
      (mergeUsage2 a b).totalTokens = a.totalTokens + b.totalTokens ∧
      (mergeUsage2 a b).durationMs = max a.durationMs b.durationMs ∧
      (mergeUsage2 a b).cost = costMergeSpec a.cost b.cost) := by
  refine ⟨?_, ?_, ?_⟩
  · intro a b c
    simp only [mergeUsage2_eq, costMergeSpec_assoc]
    congr 1
    · omega
    · omega
    · omega
    · omega
  · intro a b
    simp only [mergeUsage2_eq, costMergeSpec_comm]
    congr 1 <;> omega
  · intro a b
    simp [mergeUsage2_eq]

/-! ## Error values and retry classification (packages/core/src/utils/resilience.ts) -/

/-- A JavaScript `Error` instance: its `name`, `message`, and the numeric
`status ?? statusCode` property when one is present. -/
structure JsError where
  name : String
  message : String
  status : Option Int
  deriving Repr, DecidableEq

/-- A thrown JavaScript value: either an `Error` instance or some other value
(carrying its `String(err)` rendering). -/
inductive Thrown where
  | error (e : JsError)
  | nonError (rendered : String)
  deriving Repr, DecidableEq

/-- ASCII word character, as in the JS regex class `\w` used by `\b`. -/
def isWordChar (c : Char) : Bool := c.isAlphanum || c == '_'

/-- Maximal runs of word characters of a string (accumulator holds the
current run reversed). -/
def wordRunsAux : List Char → List Char → List (List Char)
  | [], acc => if acc.isEmpty then [] else [acc.reverse]
  | c :: cs, acc =>
    if isWordChar c then wordRunsAux cs (c :: acc)
    else if acc.isEmpty then wordRunsAux cs []
    else acc.reverse :: wordRunsAux cs []

/-- The first match of the JS regex `\b(\d{3})\b` in `s`, as a number: the
first maximal word-character run consisting of exactly three digits. -/
def firstThreeDigitToken (s : String) : Option Nat :=
  ((wordRunsAux s.toList []).find? (fun r => r.length == 3 && r.all Char.isDigit)).map
    (fun r => r.foldl (fun n c => 10 * n + (c.toNat - 48)) 0)

/-- `message.toLowerCase()` (ASCII). -/
def toLowerStr (s : String) : String := String.mk (s.toList.map Char.toLower)

/-- Does `needle` occur as a contiguous sublist of the second argument? -/
def includesChars (needle : List Char) : List Char → Bool
  | [] => needle.isEmpty
  | c :: t => needle.isPrefixOf (c :: t) || includesChars needle t

/-- `hay.includes(needle)`. -/
def includesStr (hay needle : String) : Bool := includesChars needle.toList hay.toList

def RETRYABLE_STATUS_CODES : List Int := [429, 500, 502, 503, 504]

def NON_RETRYABLE_STATUS_CODES : List Int := [400, 401, 403, 404, 422]

/-- The two early-return checks performed against a candidate status code:
`some true` / `some false` for a hit in either set, `none` to fall through. -/
def classifyStatus (status : Int) : Option Bool :=
  if RETRYABLE_STATUS_CODES.contains status then some true
  else if NON_RETRYABLE_STATUS_CODES.contains status then some false
  else none

/-- The `statusMatch` block: first three-digit token of the message, run
through the status-code sets. -/
def messageStatusClass (message : String) : Option Bool :=
  match firstThreeDigitToken message with
  | some status => classifyStatus (Int.ofNat status)
  | none => none

/-- The `statusProp` block: the numeric `status ?? statusCode` property, run
through the status-code sets. -/
def propStatusClass (status : Option Int) : Option Bool :=
  match status with
  | some status => classifyStatus status
  | none => none

/-- The timeout / network error keyword check. -/
def timeoutMarkers (message : String) : Bool :=
  includesStr message "timeout" || includesStr message "timed out" ||
  includesStr message "econnreset" || includesStr message "econnrefused" ||
  includesStr message "network" || includesStr message "fetch failed" ||
  includesStr message "socket hang up"

/-- The provider capacity keyword check. -/
def capacityMarkers (message : String) : Bool :=
  includesStr message "overloaded" || includesStr message "capacity"

/-- The rate limit keyword check. -/
def rateLimitMarkers (message : String) : Bool :=
  includesStr message "rate limit" || includesStr message "too many requests"

/-- `isRetryableError` from resilience.ts. -/
def isRetryableError : Thrown → Bool
  | .nonError _ => false
  | .error e =>
    if e.name = "AbortError" then false
    else
      let message := toLowerStr e.message
      match messageStatusClass message with
      | some b => b
      | none =>
        match propStatusClass e.status with
        | some b => b
        | none =>
          if timeoutMarkers message then true
          else if capacityMarkers message then true
          else if rateLimitMarkers message then true
          else false

/-- Claim C5 counterexample: this error's message indicates a timeout — one of
the claim's "is retried" markers — yet `isRetryableError` classifies it as
non-retryable, because the numeric `status` property (401) is consulted before
the keyword checks. -/
theorem C5_counterexample_timeout_with_401 :
    timeoutMarkers (toLowerStr "Request timed out") = true ∧
    isRetryableError (Thrown.error ⟨"Error", "Request timed out", some 401⟩) = false := by
  decide

/-- Claim C5 (amended): classification is by precedence. A thrown non-Error
value is never retried; an `AbortError` is never retried; otherwise the first
three-digit token of the message decides when it lies in either status set;
otherwise the numeric `status`/`statusCode` property decides when it lies in
either set; otherwise the timeout/network, capacity and rate-limit keyword
markers decide; anything left is non-retryable.  429/500/502/503/504 classify
as retryable and 400/401/403/404/422 as non-retryable. -/
theorem C5_isRetryableError_precedence :
    (∀ s, isRetryableError (Thrown.nonError s) = false) ∧
    (∀ e : JsError, e.name = "AbortError" → isRetryableError (Thrown.error e) = false) ∧
    (∀ (e : JsError) (b : Bool), e.name ≠ "AbortError" →
        messageStatusClass (toLowerStr e.message) = some b →
        isRetryableError (Thrown.error e) = b) ∧
    (∀ (e : JsError) (b : Bool), e.name ≠ "AbortError" →
        messageStatusClass (toLowerStr e.message) = none →
        propStatusClass e.status = some b →
        isRetryableError (Thrown.error e) = b) ∧
    (∀ e : JsError, e.name ≠ "AbortError" →
        messageStatusClass (toLowerStr e.message) = none →
        propStatusClass e.status = none →
        isRetryableError (Thrown.error e) =
          (timeoutMarkers (toLowerStr e.message) || capacityMarkers (toLowerStr e.message) ||
            rateLimitMarkers (toLowerStr e.message))) ∧
    (∀ n ∈ RETRYABLE_STATUS_CODES, classifyStatus n = some true) ∧
    (∀ n ∈ NON_RETRYABLE_STATUS_CODES, classifyStatus n = some false) := by
  refine ⟨?_, ?_, ?_, ?_, ?_, by decide, by decide⟩
  · intro s; rfl
  · intro e h; simp [isRetryableError, h]
  · intro e b h1 h2; simp [isRetryableError, h1, h2]
  · intro e b h1 h2 h3; simp [isRetryableError, h1, h2, h3]
  · intro e h1 h2 h3
    simp only [isRetryableError, if_neg h1, h2, h3]
    cases htm : timeoutMarkers (toLowerStr e.message) <;>
      cases hcm : capacityMarkers (toLowerStr e.message) <;>
        cases hrl : rateLimitMarkers (toLowerStr e.message) <;> simp [htm, hcm, hrl]

/-- Witness: the precedence theorem applied at concrete errors. -/
theorem C5_isRetryableError_precedence_witness :
    isRetryableError (Thrown.nonError "boom") = false ∧
    isRetryableError (Thrown.error ⟨"AbortError", "timeout", some 503⟩) = false ∧
    isRetryableError (Thrown.error ⟨"Error", "HTTP 503 Service Unavailable", some 401⟩) = true ∧
    isRetryableError (Thrown.error ⟨"Error", "bad request", some 400⟩) = false ∧
    isRetryableError (Thrown.error ⟨"Error", "fetch failed", none⟩) = true :=
  ⟨C5_isRetryableError_precedence.1 "boom",
   C5_isRetryableError_precedence.2.1 _ rfl,
   C5_isRetryableError_precedence.2.2.1 _ true (by decide) (by decide),
   C5_isRetryableError_precedence.2.2.2.1 _ false (by decide) (by decide) (by decide),
   by
     have h := C5_isRetryableError_precedence.2.2.2.2.1 ⟨"Error", "fetch failed", none⟩
       (by decide) (by decide) (by decide)
     simpa using h⟩

/-! ## Task executor (src/unnamed/part_012, `executeTask`) -/

structure ClarifyItem where
  type : String
  text : String
  choices : Option (List String) := none
  context : Option String := none
  deriving Repr, DecidableEq

structure Skill where
  name : String
  phase : String
  content : String
  deriving Repr, DecidableEq

structure GuardResult where
  allowed : Bool
  reason : Option String
  deriving Repr, DecidableEq

/-- The result shape produced by `runAgent`, which is also the `result` field
of a `TaskResult`. -/
structure AgentRunResult where
  response : String
  items : Option (List ClarifyItem) := none
  toolsUsed : List String := []
  usage : Option UsageInfo := none
  deriving Repr, DecidableEq

structure TaskResult where
  agent : String
  query : String
  result : AgentRunResult
  responseSkills : Option (List String) := none
  deriving Repr, DecidableEq

/-- `errorResult` from execute-task: a result-shaped error. -/
def errorResult (agent query message : String) : TaskResult :=
  { agent := agent, query := query, result := { response := message, toolsUsed := [] } }

/-- An agent registration as `executeTask` consumes it.  `toolNames` stands
for `Object.keys(registration.tools)`; a missing tools record is the empty
list.  `isOrchestrator` reflects membership in
`getOrchestratorAgents(ctx.agents)`, which is derived from this flag. -/
structure AgentRegistration where
  toolNames : List String
  isOrchestrator : Bool := false
  disableMemoryTool : Bool := false
  guard : Option (String → String → GuardResult) := none

structure DelegationContext where
  chain : List String
  depth : Nat
  deriving Repr, DecidableEq

/-- `parentCtx?.chain ?? []`. -/
def ctxChain : Option DelegationContext → List String
  | some c => c.chain
  | none => []

/-- `parentCtx?.depth ?? 0`. -/
def ctxDepth : Option DelegationContext → Nat
  | some c => c.depth
  | none => 0

/-- The pieces of `PluginContext` that `executeTask` reads. -/
structure ExecEnv where
  agents : String → Option AgentRegistration
  maxDelegationDepth : Nat
  getSkill : String → Option Skill

/-- The skill loop of `executeTask`: query-phase and response-phase skill
names collected in request order (skills the store does not know are
skipped). -/
def collectSkillNames (env : ExecEnv) (skills : Option (List String)) :
    List String × List String :=
  match skills with
  | none => ([], [])
  | some names =>
    names.foldl
      (fun acc skillName =>
        match env.getSkill skillName with
        | none => acc
        | some skill =>
          let q := if skill.phase = "query" || skill.phase = "both"
                   then acc.1 ++ [skill.name] else acc.1
          let r := if skill.phase = "response" || skill.phase = "both"
                   then acc.2 ++ [skill.name] else acc.2
          (q, r))
      ([], [])

/-- `err instanceof Error ? err.message : String(err)`. -/
def thrownMessage : Thrown → String
  | .error e => e.message
  | .nonError rendered => rendered

/-- `executeTask`.  The outcome of the wrapped `runAgent` invocation is
passed in as an `Except` (`.error` models a thrown value caught by the
try/catch).  The function is total: every outcome, including a thrown
invocation, yields a `TaskResult`. -/
def executeTask (env : ExecEnv) (parentCtx : Option DelegationContext)
    (runOutcome : Except Thrown AgentRunResult)
    (agent query : String) (skills : Option (List String)) : TaskResult :=
  match env.agents agent with
  | none => errorResult agent query ("Unknown agent: " ++ agent)
  | some registration =>
    if registration.isOrchestrator then
      errorResult agent query
        ("Agent \"" ++ agent ++ "\" is an orchestrator and cannot be delegated to")
    else if registration.toolNames = [] then
      errorResult agent query ("Agent \"" ++ agent ++ "\" does not support task execution")
    else
      let chain := ctxChain parentCtx
      let depth := ctxDepth parentCtx
      if depth ≥ env.maxDelegationDepth then
        errorResult agent query
          ("Delegation depth limit (" ++ toString env.maxDelegationDepth ++
            ") exceeded. Chain: " ++ String.intercalate " → " chain ++ " → " ++ agent)
      else if chain.getLast? = some agent then
        errorResult agent query
          ("Self-delegation blocked: \"" ++ agent ++ "\" cannot delegate to itself")
      else if agent ∈ chain then
        errorResult agent query
          ("Circular delegation blocked: " ++ String.intercalate " → " chain ++ " → " ++ agent)
      else
        let responseSkillNames := (collectSkillNames env skills).2
        let runPhase : TaskResult :=
          match runOutcome with
          | .ok result =>
            { agent := agent, query := query, result := result,
              responseSkills :=
                if responseSkillNames = [] then none else some responseSkillNames }
          | .error err =>
            errorResult agent query ("Agent execution failed: " ++ thrownMessage err)
        match registration.guard with
        | some g =>
          if (g query agent).allowed = false then
            errorResult agent query
              ("Guard blocked: " ++ ((g query agent).reason.getD "query not allowed"))
          else runPhase
        | none => runPhase

theorem executeTask_agent_query (env : ExecEnv) (pc : Option DelegationContext)
    (ro : Except Thrown AgentRunResult) (agent query : String)
    (skills : Option (List String)) :
    (executeTask env pc ro agent query skills).agent = agent ∧
    (executeTask env pc ro agent query skills).query = query := by
  simp only [executeTask]
  cases env.agents agent with
  | none => exact ⟨rfl, rfl⟩
  | some r => constructor <;> (repeat' split) <;> rfl

/-- Claim C1: `executeTask` performs its legality checks in exactly the order
unknown agent, orchestrator target, toolless target, depth limit, immediate
self-delegation, cycle anywhere in the chain, each returning the
corresponding result-shaped error; moreover any input whose chain already
contains the target, and any input at or beyond the delegation depth limit,
yields an error-shaped `TaskResult` (the function is total — nothing is
thrown). -/
theorem C1_executeTask_check_order :
    (∀ env pc ro agent query skills, env.agents agent = none →
        executeTask env pc ro agent query skills =
          errorResult agent query ("Unknown agent: " ++ agent)) ∧
    (∀ env pc ro agent query skills r, env.agents agent = some r →
        r.isOrchestrator = true →
        executeTask env pc ro agent query skills =
          errorResult agent query
            ("Agent \"" ++ agent ++ "\" is an orchestrator and cannot be delegated to")) ∧
    (∀ env pc ro agent query skills r, env.agents agent = some r →
        r.isOrchestrator = false → r.toolNames = [] →
        executeTask env pc ro agent query skills =
          errorResult agent query
            ("Agent \"" ++ agent ++ "\" does not support task execution")) ∧
    (∀ env pc ro agent query skills r, env.agents agent = some r →
        r.isOrchestrator = false → r.toolNames ≠ [] →
        ctxDepth pc ≥ env.maxDelegationDepth →
        executeTask env pc ro agent query skills =
          errorResult agent query
            ("Delegation depth limit (" ++ toString env.maxDelegationDepth ++
              ") exceeded. Chain: " ++ String.intercalate " → " (ctxChain pc) ++
              " → " ++ agent)) ∧
    (∀ env pc ro agent query skills r, env.agents agent = some r →
        r.isOrchestrator = false → r.toolNames ≠ [] →
        ctxDepth pc < env.maxDelegationDepth →
        (ctxChain pc).getLast? = some agent →
        executeTask env pc ro agent query skills =
          errorResult agent query
            ("Self-delegation blocked: \"" ++ agent ++ "\" cannot delegate to itself")) ∧
    (∀ env pc ro agent query skills r, env.agents agent = some r →
        r.isOrchestrator = false → r.toolNames ≠ [] →
        ctxDepth pc < env.maxDelegationDepth →
        (ctxChain pc).getLast? ≠ some agent →
        agent ∈ ctxChain pc →
        executeTask env pc ro agent query skills =
          errorResult agent query
            ("Circular delegation blocked: " ++ String.intercalate " → " (ctxChain pc) ++
              " → " ++ agent)) ∧
    (∀ env pc ro agent query skills, agent ∈ ctxChain pc →
        ∃ m, executeTask env pc ro agent query skills = errorResult agent query m) ∧
    (∀ env pc ro agent query skills, ctxDepth pc ≥ env.maxDelegationDepth →
        ∃ m, executeTask env pc ro agent query skills = errorResult agent query m) := by
  refine ⟨?_, ?_, ?_, ?_, ?_, ?_, ?_, ?_⟩
  · intro env pc ro agent query skills h
    simp [executeTask, h]
  · intro env pc ro agent query skills r h horch
    simp [executeTask, h, horch]
  · intro env pc ro agent query skills r h horch htools
    simp [executeTask, h, horch, htools]
  · intro env pc ro agent query skills r h horch htools hdepth
    simp [executeTask, h, horch, htools, hdepth]
  · intro env pc ro agent query skills r h horch htools hdepth hlast
    have hd : ¬(ctxDepth pc ≥ env.maxDelegationDepth) := by omega
    simp [executeTask, h, horch, htools, hd, hlast]
  · intro env pc ro agent query skills r h horch htools hdepth hlast hmem
    have hd : ¬(ctxDepth pc ≥ env.maxDelegationDepth) := by omega
    simp [executeTask, h, horch, htools, hd, hlast, hmem]
  · intro env pc ro agent query skills hmem
    cases henv : env.agents agent with
    | none => exact ⟨"Unknown agent: " ++ agent, by simp [executeTask, henv]⟩
    | some r =>
      by_cases horch : r.isOrchestrator
      · exact ⟨"Agent \"" ++ agent ++ "\" is an orchestrator and cannot be delegated to",
          by simp [executeTask, henv, horch]⟩
      by_cases htools : r.toolNames = []
      · exact ⟨"Agent \"" ++ agent ++ "\" does not support task execution",
          by simp [executeTask, henv, horch, htools]⟩
      by_cases hdepth : ctxDepth pc ≥ env.maxDelegationDepth
      · exact ⟨"Delegation depth limit (" ++ toString env.maxDelegationDepth ++
            ") exceeded. Chain: " ++ String.intercalate " → " (ctxChain pc) ++ " → " ++ agent,
          by simp [executeTask, henv, horch, htools, hdepth]⟩
      by_cases hlast : (ctxChain pc).getLast? = some agent
      · exact ⟨"Self-delegation blocked: \"" ++ agent ++ "\" cannot delegate to itself",
          by simp [executeTask, henv, horch, htools, hdepth, hlast]⟩
      exact ⟨"Circular delegation blocked: " ++ String.intercalate " → " (ctxChain pc) ++
          " → " ++ agent,
        by simp [executeTask, henv, horch, htools, hdepth, hlast, hmem]⟩
  · intro env pc ro agent query skills hdepth
    cases henv : env.agents agent with
    | none => exact ⟨"Unknown agent: " ++ agent, by simp [executeTask, henv]⟩
    | some r =>
      by_cases horch : r.isOrchestrator
      · exact ⟨"Agent \"" ++ agent ++ "\" is an orchestrator and cannot be delegated to",
          by simp [executeTask, henv, horch]⟩
      by_cases htools : r.toolNames = []
      · exact ⟨"Agent \"" ++ agent ++ "\" does not support task execution",
          by simp [executeTask, henv, horch, htools]⟩
      exact ⟨"Delegation depth limit (" ++ toString env.maxDelegationDepth ++
          ") exceeded. Chain: " ++ String.intercalate " → " (ctxChain pc) ++ " → " ++ agent,
        by simp [executeTask, henv, horch, htools, hdepth]⟩

/-- A small concrete registry used to instantiate the executor theorems. -/
def demoEnv : ExecEnv :=
  { agents := fun name =>
      if name = "weather" then some { toolNames := ["getWeather"] }
      else if name = "router" then some { toolNames := ["routeToAgent"], isOrchestrator := true }
      else if name = "idle" then some { toolNames := [] }
      else if name = "guarded" then
        some { toolNames := ["lookup"],
               guard := some (fun _ _ => { allowed := false, reason := some "off-topic" }) }
      else none,
    maxDelegationDepth := 3,
    getSkill := fun _ => none }

def demoRun : AgentRunResult := { response := "sunny", toolsUsed := ["getWeather"] }

/-- Witness: each legality check of `C1_executeTask_check_order` fired at a
concrete input. -/
theorem C1_executeTask_check_order_witness :
    executeTask demoEnv none (.ok demoRun) "ghost" "q" none =
      errorResult "ghost" "q" "Unknown agent: ghost" ∧
    executeTask demoEnv none (.ok demoRun) "router" "q" none =
      errorResult "router" "q"
        "Agent \"router\" is an orchestrator and cannot be delegated to" ∧
    executeTask demoEnv none (.ok demoRun) "idle" "q" none =
      errorResult "idle" "q" "Agent \"idle\" does not support task execution" ∧
    executeTask demoEnv (some ⟨["a", "b", "c"], 3⟩) (.ok demoRun) "weather" "q" none =
      errorResult "weather" "q"
        "Delegation depth limit (3) exceeded. Chain: a → b → c → weather" ∧
    executeTask demoEnv (some ⟨["weather"], 1⟩) (.ok demoRun) "weather" "q" none =
      errorResult "weather" "q"
        "Self-delegation blocked: \"weather\" cannot delegate to itself" ∧
    executeTask demoEnv (some ⟨["weather", "guarded"], 2⟩) (.ok demoRun) "weather" "q" none =
      errorResult "weather" "q"
        "Circular delegation blocked: weather → guarded → weather" ∧
    (∃ m, executeTask demoEnv (some ⟨["a", "weather", "b"], 1⟩) (.ok demoRun) "weather" "q" none =
      errorResult "weather" "q" m) ∧
    (∃ m, executeTask demoEnv (some ⟨["a"], 7⟩) (.ok demoRun) "weather" "q" none =
      errorResult "weather" "q" m) :=
  ⟨C1_executeTask_check_order.1 demoEnv none (.ok demoRun) "ghost" "q" none rfl,
   C1_executeTask_check_order.2.1 demoEnv none (.ok demoRun) "router" "q" none _ rfl rfl,
   C1_executeTask_check_order.2.2.1 demoEnv none (.ok demoRun) "idle" "q" none _ rfl rfl rfl,
   C1_executeTask_check_order.2.2.2.1 demoEnv (some ⟨["a", "b", "c"], 3⟩) (.ok demoRun)
     "weather" "q" none _ rfl rfl (by simp) (by decide),
   C1_executeTask_check_order.2.2.2.2.1 demoEnv (some ⟨["weather"], 1⟩) (.ok demoRun)
     "weather" "q" none _ rfl rfl (by simp) (by decide) (by decide),
   C1_executeTask_check_order.2.2.2.2.2.1 demoEnv (some ⟨["weather", "guarded"], 2⟩)
     (.ok demoRun) "weather" "q" none _ rfl rfl (by simp) (by decide) (by decide) (by decide),
   C1_executeTask_check_order.2.2.2.2.2.2.1 demoEnv (some ⟨["a", "weather", "b"], 1⟩)
     (.ok demoRun) "weather" "q" none (by decide),
   C1_executeTask_check_order.2.2.2.2.2.2.2 demoEnv (some ⟨["a"], 7⟩) (.ok demoRun)
     "weather" "q" none (by decide)⟩

/-- The registered guard, if any, allows this query. -/
def guardAllows (r : AgentRegistration) (query agent : String) : Prop :=
  ∀ g, r.guard = some g → (g query agent).allowed = true

/-- Claim C2: `executeTask` never throws.  Every input yields a `TaskResult`
echoing the requested agent and query (the Lean function is total, mirroring
the executor's catch-all behaviour); a registered guard that returns
not-allowed short-circuits with a "Guard blocked" error result; and when the
underlying agent invocation throws, the thrown value is converted to an
error result carrying its message. -/
theorem C2_executeTask_total :
    (∀ env pc ro agent query skills,
        (executeTask env pc ro agent query skills).agent = agent ∧
        (executeTask env pc ro agent query skills).query = query) ∧
    (∀ env pc ro agent query skills r g,
        env.agents agent = some r → r.isOrchestrator = false → r.toolNames ≠ [] →
        ctxDepth pc < env.maxDelegationDepth →
        (ctxChain pc).getLast? ≠ some agent → agent ∉ ctxChain pc →
        r.guard = some g → (g query agent).allowed = false →
        executeTask env pc ro agent query skills =
          errorResult agent query
            ("Guard blocked: " ++ ((g query agent).reason.getD "query not allowed"))) ∧
    (∀ env pc t agent query skills r,
        env.agents agent = some r → r.isOrchestrator = false → r.toolNames ≠ [] →
        ctxDepth pc < env.maxDelegationDepth →
        (ctxChain pc).getLast? ≠ some agent → agent ∉ ctxChain pc →
        guardAllows r query agent →
        executeTask env pc (.error t) agent query skills =
          errorResult agent query ("Agent execution failed: " ++ thrownMessage t)) := by
  refine ⟨executeTask_agent_query, ?_, ?_⟩
  · intro env pc ro agent query skills r g h horch htools hdepth hlast hmem hg hallow
    have hd : ¬(ctxDepth pc ≥ env.maxDelegationDepth) := by omega
    simp [executeTask, h, horch, htools, hd, hlast, hmem, hg, hallow]
  · intro env pc t agent query skills r h horch htools hdepth hlast hmem hga
    have hd : ¬(ctxDepth pc ≥ env.maxDelegationDepth) := by omega
    cases hg : r.guard with
    | none => simp [executeTask, h, horch, htools, hd, hlast, hmem, hg]
    | some g =>
      have hallow := hga g hg
      simp [executeTask, h, horch, htools, hd, hlast, hmem, hg, hallow]

/-- Witness: the guard short-circuit and the caught invocation exception at
concrete inputs. -/
theorem C2_executeTask_total_witness :
    (executeTask demoEnv none (.ok demoRun) "anyone" "hello" none).agent = "anyone" ∧
    executeTask demoEnv none (.ok demoRun) "guarded" "hack the db" none =
      errorResult "guarded" "hack the db" "Guard blocked: off-topic" ∧
    executeTask demoEnv none
        (.error (Thrown.error ⟨"Error", "model unavailable", none⟩)) "weather" "q" none =
      errorResult "weather" "q" "Agent execution failed: model unavailable" :=
  ⟨(C2_executeTask_total.1 demoEnv none (.ok demoRun) "anyone" "hello" none).1,
   C2_executeTask_total.2.1 demoEnv none (.ok demoRun) "guarded" "hack the db" none
     _ _ rfl rfl (by simp) (by decide) (by decide) (by decide) rfl rfl,
   C2_executeTask_total.2.2 demoEnv none (Thrown.error ⟨"Error", "model unavailable", none⟩)
     "weather" "q" none _ rfl rfl (by simp) (by decide) (by decide) (by decide)
     (fun g hg => by simp at hg)⟩

/-! ## Conversation compaction (packages/core/src/utils — compaction.ts) -/

/-- Message metadata as compaction reads and writes it: the
`_compaction` marker and the count of summarized messages. -/
structure MessageMetadata where
  compaction : Bool := false
  summarizedCount : Option Nat := none
  deriving Repr, DecidableEq

structure ConversationMessage where
  role : String
  content : String
  timestamp : String
  metadata : Option MessageMetadata := none
  deriving Repr, DecidableEq

structure Conversation where
  id : String
  messages : List ConversationMessage
  deriving Repr, DecidableEq

def DEFAULTS_COMPACTION_THRESHOLD : Nat := 20

def DEFAULTS_COMPACTION_PRESERVE_RECENT : Nat := 4

/-- `needsCompaction(conversation, threshold?)`. -/
def needsCompaction (conversation : Conversation) (threshold : Option Nat) : Bool :=
  conversation.messages.length > threshold.getD DEFAULTS_COMPACTION_THRESHOLD

/-- `m.metadata?.[COMPACTION_METADATA_KEY]` is truthy. -/
def isCompactionMessage (m : ConversationMessage) : Bool :=
  match m.metadata with
  | some md => md.compaction
  | none => false

def formatMessagesForSummary (messages : List ConversationMessage) : String :=
  String.intercalate "\n\n"
    (messages.map (fun m =>
      (if isCompactionMessage m then "[Previous Summary]" else m.role) ++ ": " ++ m.content))

structure CompactionResult where
  summary : String
  summarizedCount : Nat
  preservedCount : Nat
  newMessageCount : Nat
  deriving Repr, DecidableEq

/-- `compactConversation`.  The summarization model call (which the source
wraps in `withResilience`) is the function `llm` from the full prompt to the
summary text; `now` is the timestamp written on the summary message.  Returns
the compaction report together with the message list stored for the
conversation after the call (`none` when the conversation does not exist). -/
def compactConversation (llm : String → String) (preserveRecent : Nat) (prompt : String)
    (now : String) (conversation : Option Conversation) :
    Option (CompactionResult × List ConversationMessage) :=
  match conversation with
  | none => none
  | some conversation =>
    let messages := conversation.messages
    if messages.length ≤ preserveRecent then
      some ({ summary := "", summarizedCount := 0, preservedCount := messages.length,
              newMessageCount := messages.length }, messages)
    else
      let toSummarize := messages.take (messages.length - preserveRecent)
      let toPreserve := messages.drop (messages.length - preserveRecent)
      let formatted := formatMessagesForSummary toSummarize
      let fullPrompt := prompt ++ "\n\n---\n\n" ++ formatted
      let summary := llm fullPrompt
      let summaryMessage : ConversationMessage :=
        { role := "assistant", content := summary, timestamp := now,
          metadata := some { compaction := true, summarizedCount := some toSummarize.length } }
      some ({ summary := summary, summarizedCount := toSummarize.length,
              preservedCount := toPreserve.length,
              newMessageCount := 1 + toPreserve.length },
            summaryMessage :: toPreserve)

/-- The auto-compaction step of `loadConversationWithCompaction`
(conversation-helpers.ts): compaction runs only when enabled and
`needsCompaction` holds; the stored messages are reloaded afterwards. -/
def autoCompactOnLoad (enabled : Bool) (llm : String → String) (threshold : Option Nat)
    (preserveRecent : Nat) (prompt now : String) (conv : Conversation) :
    List ConversationMessage :=
  if enabled && needsCompaction conv threshold then
    match compactConversation llm preserveRecent prompt now (some conv) with
    | some (_, msgs) => msgs
    | none => conv.messages
  else conv.messages

/-- Claim C8: compacting a conversation with more than `preserveRecent`
messages stores exactly `1 + preserveRecent` messages: a summary message
(tagged with the compaction marker) first, followed by the last
`preserveRecent` original messages unchanged and in order. -/
theorem C8_compactConversation_shape :
    ∀ (llm : String → String) (preserveRecent : Nat) (prompt now id : String)
      (messages : List ConversationMessage),
      messages.length > preserveRecent →
      ∃ res newMessages,
        compactConversation llm preserveRecent prompt now (some ⟨id, messages⟩) =
          some (res, newMessages) ∧
        newMessages.length = 1 + preserveRecent ∧
        newMessages.tail = messages.drop (messages.length - preserveRecent) ∧
        (∃ s, newMessages.head? = some s ∧ isCompactionMessage s = true) ∧
        res.summarizedCount = messages.length - preserveRecent ∧
        res.preservedCount = preserveRecent ∧
        res.newMessageCount = 1 + preserveRecent := by
  intro llm preserveRecent prompt now id messages h
  have hlen : (messages.drop (messages.length - preserveRecent)).length = preserveRecent := by
    rw [List.length_drop]; omega
  have htake : (messages.take (messages.length - preserveRecent)).length =
      messages.length - preserveRecent := by
    rw [List.length_take]; omega
  have heq : compactConversation llm preserveRecent prompt now (some ⟨id, messages⟩) =
      some (CompactionResult.mk
              (llm (prompt ++ "\n\n---\n\n" ++
                formatMessagesForSummary (messages.take (messages.length - preserveRecent))))
              (messages.take (messages.length - preserveRecent)).length
              (messages.drop (messages.length - preserveRecent)).length
              (1 + (messages.drop (messages.length - preserveRecent)).length),
            ConversationMessage.mk "assistant"
              (llm (prompt ++ "\n\n---\n\n" ++
                formatMessagesForSummary (messages.take (messages.length - preserveRecent))))
              now
              (some (MessageMetadata.mk true
                (some (messages.take (messages.length - preserveRecent)).length))) ::
              messages.drop (messages.length - preserveRecent)) := by
    simp only [compactConversation]
    rw [if_neg (by omega)]
  refine ⟨_, _, heq, ?_, rfl, ⟨_, rfl, rfl⟩, ?_, hlen, ?_⟩
  · simp [hlen]; omega
  · exact htake
  · simp [hlen]

/-- A 25-message conversation history. -/
def demoMessages25 : List ConversationMessage :=
  (List.range 25).map (fun i => { role := "user", content := toString i, timestamp := "" })

/-- Witness: the spec scenario — 25 messages with `preserveRecent = 4`
compact to 5 messages. -/
theorem C8_compactConversation_shape_witness :
    ∃ res newMessages,
      compactConversation (fun _ => "summary") 4 "P" "t0" (some ⟨"c1", demoMessages25⟩) =
        some (res, newMessages) ∧
      newMessages.length = 1 + 4 ∧
      newMessages.tail = demoMessages25.drop (demoMessages25.length - 4) ∧
      (∃ s, newMessages.head? = some s ∧ isCompactionMessage s = true) ∧
      res.summarizedCount = demoMessages25.length - 4 ∧
      res.preservedCount = 4 ∧
      res.newMessageCount = 1 + 4 :=
  C8_compactConversation_shape (fun _ => "summary") 4 "P" "t0" "c1" demoMessages25 (by decide)

/-- A 10-message conversation history. -/
def demoMessages10 : List ConversationMessage :=
  (List.range 10).map (fun i => { role := "user", content := toString i, timestamp := "" })

/-- Claim C9 counterexample: a 10-message conversation does not exceed the
default compaction threshold (20), yet calling `compactConversation` with the
default `preserveRecent = 4` is not a no-op — it summarizes 6 messages and
replaces the stored list. -/
theorem C9_counterexample_below_threshold :
    needsCompaction ⟨"c1", demoMessages10⟩ none = false ∧
    ∃ res newMessages,
      compactConversation (fun _ => "summary") DEFAULTS_COMPACTION_PRESERVE_RECENT
          "P" "t0" (some ⟨"c1", demoMessages10⟩) = some (res, newMessages) ∧
      res.summarizedCount = 6 ∧
      newMessages ≠ demoMessages10 := by
  exact ⟨by decide, ⟨_, _, rfl, by decide, by decide⟩⟩

/-- Claim C9 (amended): `compactConversation` is a no-op reporting zero
summarized messages exactly when the message count does not exceed
`preserveRecent`; separately, the auto-compaction step run on conversation
load leaves the messages untouched whenever the count does not exceed the
compaction threshold, because compaction is not invoked at all. -/
theorem C9_compaction_noop :
    (∀ (llm : String → String) (preserveRecent : Nat) (prompt now id : String)
        (messages : List ConversationMessage),
        messages.length ≤ preserveRecent →
        compactConversation llm preserveRecent prompt now (some ⟨id, messages⟩) =
          some ({ summary := "", summarizedCount := 0, preservedCount := messages.length,
                  newMessageCount := messages.length }, messages)) ∧
    (∀ (enabled : Bool) (llm : String → String) (threshold : Option Nat)
        (preserveRecent : Nat) (prompt now : String) (conv : Conversation),
        conv.messages.length ≤ threshold.getD DEFAULTS_COMPACTION_THRESHOLD →
        autoCompactOnLoad enabled llm threshold preserveRecent prompt now conv =
          conv.messages) := by
  constructor
  · intro llm preserveRecent prompt now id messages h
    simp only [compactConversation]
    rw [if_pos h]
  · intro enabled llm threshold preserveRecent prompt now conv h
    have : needsCompaction conv threshold = false := by
      simp [needsCompaction]; omega
    simp [autoCompactOnLoad, this]

/-- Witness: the no-op cases at concrete inputs. -/
theorem C9_compaction_noop_witness :
    compactConversation (fun _ => "summary") 4 "P" "t0"
        (some ⟨"c1", demoMessages10.take 3⟩) =
      some ({ summary := "", summarizedCount := 0, preservedCount := 3,
              newMessageCount := 3 }, demoMessages10.take 3) ∧
    autoCompactOnLoad true (fun _ => "summary") none 4 "P" "t0" ⟨"c1", demoMessages10⟩ =
      demoMessages10 :=
  ⟨by
    have h := C9_compaction_noop.1 (fun _ => "summary") 4 "P" "t0" "c1"
      (demoMessages10.take 3) (by decide)
    simpa using h,
   C9_compaction_noop.2 true (fun _ => "summary") none 4 "P" "t0" ⟨"c1", demoMessages10⟩
     (by decide)⟩

/-! ## Active request registry (packages/core/src/utils/request-registry.ts) -/

/-- The module state of request-registry.ts: `active` is the
`conversationId → AbortController` map (`activeRequests`); controllers are
identified by the order of their creation, `counter` being the next fresh
id and `aborted` the set of controllers whose `abort()` has been called. -/
structure RequestRegistry where
  counter : Nat
  aborted : List Nat
  active : List (String × Nat)
  deriving Repr, DecidableEq

/-- `activeRequests.get(conversationId)`. -/
def lookupActive (s : RequestRegistry) (conversationId : String) : Option Nat :=
  (s.active.find? (fun p => p.1 == conversationId)).map Prod.snd

/-- `cancelRequest(conversationId)`: abort the registered controller and
delete the map entry; report whether one was found. -/
def cancelRequest (s : RequestRegistry) (conversationId : String) :
    RequestRegistry × Bool :=
  match lookupActive s conversationId with
  | none => (s, false)
  | some cid =>
    ({ s with aborted := cid :: s.aborted,
              active := s.active.filter (fun p => !(p.1 == conversationId)) }, true)

/-- `registerRequest(conversationId)`: first cancel any existing request
under this id, then install a fresh controller and return it. -/
def registerRequest (s : RequestRegistry) (conversationId : String) :
    RequestRegistry × Nat :=
  let s1 := (cancelRequest s conversationId).1
  let controller := s1.counter
  ({ s1 with counter := s1.counter + 1,
             active := (conversationId, controller) :: s1.active }, controller)

/-- `unregisterRequest(conversationId)`. -/
def unregisterRequest (s : RequestRegistry) (conversationId : String) : RequestRegistry :=
  { s with active := s.active.filter (fun p => !(p.1 == conversationId)) }

/-- Well-formedness of the registry state: every controller id in use was
created (is below the counter) and the map has no duplicate keys. -/
def wfRegistry (s : RequestRegistry) : Prop :=
  (∀ p ∈ s.active, p.2 < s.counter) ∧
  (∀ i ∈ s.aborted, i < s.counter) ∧
  (s.active.map Prod.fst).Nodup

theorem find_key_filter (l : List (String × Nat)) (a b : String) (h : ¬b = a) :
    (l.filter (fun p => !(p.1 == a))).find? (fun p => p.1 == b) =
      l.find? (fun p => p.1 == b) := by
  induction l with
  | nil => rfl
  | cons x xs ih =>
    by_cases hx : x.1 = a
    · have hb : (x.1 == b) = false := by
        simp only [beq_eq_false_iff_ne, ne_eq]
        intro hcon; exact h (hcon ▸ hx)
      have hab : (a == b) = false := beq_eq_false_iff_ne.mpr (fun hcon => h hcon.symm)
      simp [List.filter_cons, List.find?_cons, hx, hb, ih, hab]
    · by_cases hb : x.1 = b <;> simp [List.filter_cons, List.find?_cons, hx, hb, ih, h]

theorem find_key_filter_self (l : List (String × Nat)) (a : String) :
    (l.filter (fun p => !(p.1 == a))).find? (fun p => p.1 == a) = none := by
  induction l with
  | nil => rfl
  | cons x xs ih =>
    by_cases hx : x.1 = a <;> simp [List.filter_cons, hx, List.find?_cons, ih]

/-- Claim C10: per conversation id at most one request is active.
`registerRequest` first aborts and removes any controller already registered
under the id and then installs a fresh (never-aborted) one, so a second
request reusing the id of an in-flight request cancels the earlier one;
well-formedness of the map (no duplicate keys) is preserved, `cancelRequest`
leaves no active entry for the id, and other conversation ids are
untouched. -/
theorem C10_registerRequest_single_active :
    (∀ s conversationId, wfRegistry s → wfRegistry (registerRequest s conversationId).1) ∧
    (∀ s conversationId cid, lookupActive s conversationId = some cid →
        cid ∈ (registerRequest s conversationId).1.aborted) ∧
    (∀ s conversationId,
        lookupActive (registerRequest s conversationId).1 conversationId =
          some (registerRequest s conversationId).2) ∧
    (∀ s conversationId, wfRegistry s →
        (registerRequest s conversationId).2 ∉ (registerRequest s conversationId).1.aborted) ∧
    (∀ s conversationId,
        lookupActive (cancelRequest s conversationId).1 conversationId = none) ∧
    (∀ s conversationId other, ¬other = conversationId →
        lookupActive (registerRequest s conversationId).1 other =
          lookupActive s other) := by
  refine ⟨?_, ?_, ?_, ?_, ?_, ?_⟩
  · intro s conversationId hwf
    obtain ⟨hact, hab, hnd⟩ := hwf
    cases h : lookupActive s conversationId with
    | none =>
      have hfind : s.active.find? (fun p => p.1 == conversationId) = none := by
        have := h
        unfold lookupActive at this
        exact Option.map_eq_none.mp this
      have hkey : conversationId ∉ s.active.map Prod.fst := by
        intro hmem
        obtain ⟨p, hp, hp1⟩ := List.mem_map.mp hmem
        have := List.find?_eq_none.mp hfind p hp
        simp [hp1] at this
      refine ⟨?_, ?_, ?_⟩ <;> simp only [registerRequest, cancelRequest, h]
      · intro p hp
        rcases List.mem_cons.mp hp with rfl | hp
        · exact Nat.lt_succ_self _
        · exact Nat.lt_succ_of_lt (hact p hp)
      · intro i hi
        exact Nat.lt_succ_of_lt (hab i hi)
      · rw [List.map_cons, List.nodup_cons]
        exact ⟨hkey, hnd⟩
    | some cid =>
      have hcid : cid < s.counter := by
        unfold lookupActive at h
        obtain ⟨p, hp, hp2⟩ := Option.map_eq_some'.mp h
        exact hp2 ▸ hact p (List.mem_of_find?_eq_some hp)
      refine ⟨?_, ?_, ?_⟩ <;> simp only [registerRequest, cancelRequest, h]
      · intro p hp
        rcases List.mem_cons.mp hp with rfl | hp
        · exact Nat.lt_succ_self _
        · exact Nat.lt_succ_of_lt (hact p (List.mem_filter.mp hp).1)
      · intro i hi
        rcases List.mem_cons.mp hi with rfl | hi
        · exact Nat.lt_succ_of_lt hcid
        · exact Nat.lt_succ_of_lt (hab i hi)
      · rw [List.map_cons, List.nodup_cons]
        constructor
        · intro hmem
          obtain ⟨p, hp, hp1⟩ := List.mem_map.mp hmem
          have := (List.mem_filter.mp hp).2
          simp [hp1] at this
        · exact ((List.filter_sublist s.active).map Prod.fst).nodup hnd
  · intro s conversationId cid h
    simp [registerRequest, cancelRequest, h]
  · intro s conversationId
    cases h : lookupActive s conversationId <;>
      simp [registerRequest, cancelRequest, lookupActive, h]
  · intro s conversationId hwf
    obtain ⟨hact, hab, hnd⟩ := hwf
    cases h : lookupActive s conversationId with
    | none =>
      simp only [registerRequest, cancelRequest, h]
      intro hmem
      exact absurd (hab _ hmem) (lt_irrefl _)
    | some cid =>
      have hcid : cid < s.counter := by
        unfold lookupActive at h
        obtain ⟨p, hp, hp2⟩ := Option.map_eq_some'.mp h
        exact hp2 ▸ hact p (List.mem_of_find?_eq_some hp)
      simp only [registerRequest, cancelRequest, h]
      intro hmem
      rcases List.mem_cons.mp hmem with heq | hmem
      · omega
      · exact absurd (hab _ hmem) (lt_irrefl _)
  · intro s conversationId
    cases h : lookupActive s conversationId with
    | none =>
      unfold cancelRequest
      rw [h]
      exact h
    | some cid =>
      unfold cancelRequest
      rw [h]
      simp [lookupActive, find_key_filter_self]
  · intro s conversationId other hne
    have hh : (conversationId == other) = false :=
      beq_eq_false_iff_ne.mpr (fun hcon => hne hcon.symm)
    cases h : lookupActive s conversationId with
    | none =>
      unfold registerRequest cancelRequest
      rw [h]
      simp [lookupActive, List.find?_cons, hh]
    | some cid =>
      unfold registerRequest cancelRequest
      rw [h]
      simp [lookupActive, List.find?_cons, hh,
        find_key_filter s.active conversationId other hne]

/-- A concrete registry state with an in-flight request for "conv". -/
def demoRegistryState : RequestRegistry :=
  { counter := 5, aborted := [1], active := [("conv", 3), ("other", 2)] }

theorem demoRegistryState_wf : wfRegistry demoRegistryState := by
  unfold wfRegistry
  exact ⟨by decide, by decide, by decide⟩

/-- Witness: re-registering "conv" on a state with an in-flight request
aborts its controller (3) and installs a fresh one, leaving "other"
untouched. -/
theorem C10_registerRequest_single_active_witness :
    wfRegistry (registerRequest demoRegistryState "conv").1 ∧
    3 ∈ (registerRequest demoRegistryState "conv").1.aborted ∧
    lookupActive (registerRequest demoRegistryState "conv").1 "conv" =
      some (registerRequest demoRegistryState "conv").2 ∧
    (registerRequest demoRegistryState "conv").2 ∉
      (registerRequest demoRegistryState "conv").1.aborted ∧
    lookupActive (cancelRequest demoRegistryState "conv").1 "conv" = none ∧
    lookupActive (registerRequest demoRegistryState "conv").1 "other" =
      lookupActive demoRegistryState "other" :=
  ⟨C10_registerRequest_single_active.1 demoRegistryState "conv" demoRegistryState_wf,
   C10_registerRequest_single_active.2.1 demoRegistryState "conv" 3 rfl,
   C10_registerRequest_single_active.2.2.1 demoRegistryState "conv",
   C10_registerRequest_single_active.2.2.2.1 demoRegistryState "conv" demoRegistryState_wf,
   C10_registerRequest_single_active.2.2.2.2.1 demoRegistryState "conv",
   C10_registerRequest_single_active.2.2.2.2.2 demoRegistryState "conv" "other" (by decide)⟩

/-! ## Orchestrator handlers (packages/core/src/streaming/sse-writer.ts) -/

def TOOL_ROUTE_TO_AGENT : String := "routeToAgent"

def TOOL_CREATE_TASK : String := "createTask"

structure TaskSpec where
  agent : String
  query : String
  skills : Option (List String) := none
  deriving Repr, DecidableEq

structure ToolCallInput where
  agent : Option String := none
  query : Option String := none
  skills : Option (List String) := none
  deriving Repr, DecidableEq

structure ToolCall where
  toolName : String
  input : Option ToolCallInput := none
  deriving Repr, DecidableEq

/-- The `output` of a tool result as the handlers read it: the executed
task's response, clarification items, tools, usage, and the
`_responseSkills` key. -/
structure ToolResultOutput where
  response : String := ""
  items : List ClarifyItem := []
  toolsUsed : List String := []
  usage : Option UsageInfo := none
  responseSkills : List String := []
  deriving Repr, DecidableEq

structure ToolResult where
  toolName : String
  output : Option ToolResultOutput := none
  deriving Repr, DecidableEq

structure Step where
  toolCalls : List ToolCall := []
  toolResults : List ToolResult := []
  deriving Repr, DecidableEq

/-- The `generateText` result the planning call produces. -/
structure PlanResult where
  steps : List Step := []
  text : String := ""
  deriving Repr, DecidableEq

/-- `collectTasksFromSteps`: every `createTask` tool call with a truthy agent
and query becomes a task, in step order. -/
def collectTasksFromSteps (steps : List Step) : List TaskSpec :=
  steps.foldl
    (fun tasks step =>
      step.toolCalls.foldl
        (fun tasks tc =>
          if tc.toolName = TOOL_CREATE_TASK then
            match tc.input with
            | some input =>
              match input.agent, input.query with
              | some a, some q =>
                if a = "" ∨ q = "" then tasks else tasks ++ [⟨a, q, input.skills⟩]
              | _, _ => tasks
            | none => tasks
          else tasks)
        tasks)
    []

/-- A settled promise: `Promise.allSettled` outcome of one task. -/
inductive Settled (α : Type) where
  | fulfilled (value : α)
  | rejected (reason : Thrown)

/-- `(s.reason as Error)?.message ?? "Unknown error"`. -/
def rejectionMessage : Thrown → String
  | .error e => e.message
  | .nonError _ => "Unknown error"

/-- The per-index mapping of `executeTasksSettled`: a fulfilled task keeps
its value, a rejected one becomes a "Task failed" error result. -/
def settleTask (runTask : TaskSpec → Settled TaskResult) (t : TaskSpec) : TaskResult :=
  match runTask t with
  | .fulfilled v => v
  | .rejected reason =>
    { agent := t.agent, query := t.query,
      result := { response := "Task failed: " ++ rejectionMessage reason, toolsUsed := [] } }

/-- `executeTasksSettled`: all tasks run under `Promise.allSettled`; the
settlement of each is supplied by `runTask`. -/
def executeTasksSettled (runTask : TaskSpec → Settled TaskResult)
    (tasks : List TaskSpec) : List TaskResult :=
  tasks.map (settleTask runTask)

/-- `[...new Set(l)]`: deduplicate keeping first occurrences. -/
def dedup (l : List String) : List String :=
  l.foldl (fun acc x => if x ∈ acc then acc else acc ++ [x]) []

/-- `collectResponseSkills`. -/
def collectResponseSkills (results : List TaskResult) : List String :=
  dedup (results.foldl (fun acc r => acc ++ r.responseSkills.getD []) [])

/-- `s.slice(0, n)`. -/
def strSlice (s : String) (n : Nat) : String := String.mk (s.toList.take n)

def SUMMARY_LENGTH_LIMIT : Nat := 200

def SYNTHESIS_MESSAGE : String := "Synthesizing results..."

structure TaskSummary where
  agent : String
  query : String
  summary : String
  deriving Repr, DecidableEq

/-- Fields of a `done` event payload.  On the wire the `tasks` key carries
raw task specs in the awaiting-approval case and result summaries after
execution; the two are modelled as separate fields. -/
structure DonePayload where
  toolsUsed : List String := []
  conversationId : String := ""
  awaitingApproval : Bool := false
  awaitingResponse : Bool := false
  tasksPlanned : Option (List TaskSpec) := none
  tasks : Option (List TaskSummary) := none
  items : Option (List ClarifyItem) := none
  usage : UsageInfo
  deriving Repr, DecidableEq

inductive EventData where
  | empty
  | conv (conversationId : String)
  | statusData (code : String) (message : String)
  | agentData (agent : String)
  | textData (text : String)
  | planData (tasks : List TaskSpec)
  | askData (items : List ClarifyItem)
  | doneData (payload : DonePayload)
  | errorData (conversationId : String) (message : String)
  | busData (busName : String)
  | skillData (agent : String) (skills : List String) (phase : String)
  deriving Repr, DecidableEq

structure WireEvent where
  name : String
  data : EventData
  deriving Repr, DecidableEq

/-- `BUS_TO_SSE_MAP` from events.ts. -/
def BUS_TO_SSE_MAP : List (String × String) :=
  [("agent:start", "agent:start"), ("agent:end", "agent:end"),
   ("delegate:start", "delegate:start"), ("delegate:end", "delegate:end"),
   ("tool:call", "tool-call"), ("tool:result", "tool-result"),
   ("skill:inject", "skill:inject"), ("status", "status")]

/-- `FORWARDED_BUS_EVENTS = new Set(Object.keys(BUS_TO_SSE_MAP))`. -/
def FORWARDED_BUS_EVENTS : List String := BUS_TO_SSE_MAP.map Prod.fst

/-- `BUS_TO_SSE_MAP[event.type] ?? event.type`. -/
def busLookup (busName : String) : String :=
  match BUS_TO_SSE_MAP.find? (fun p => p.1 == busName) with
  | some p => p.2
  | none => busName

/-- `bridgeBusToStream`: forwarded bus events rendered as wire events, in
emission order (non-forwarded events are dropped). -/
def bridgeBusEvents (busNames : List String) : List WireEvent :=
  (busNames.filter (fun n => FORWARDED_BUS_EVENTS.contains n)).map
    (fun n => { name := busLookup n, data := .busData n })

/-- The observable outcome of one `synthesizeStreaming` call: the text
chunks streamed before it completed or threw, and its final usage or thrown
value. -/
structure SynthesisOutcome where
  chunks : List String
  result : Except Thrown UsageInfo

/-- The wire events `synthesizeStreaming` writes. -/
def synthesizeStreamingEvents (agentName : String) (skillNames : List String)
    (synth : SynthesisOutcome) : List WireEvent :=
  (if skillNames.length > 0 then
    [⟨"skill:inject", .skillData agentName skillNames "response"⟩]
  else []) ++
  [⟨"status", .statusData "synthesizing" "Combining results"⟩,
   ⟨"agent:think", .textData SYNTHESIS_MESSAGE⟩] ++
  synth.chunks.map (fun t => ⟨"text-delta", .textData t⟩)

/-- `steps.flatMap((step) => step.toolResults)`. -/
def flatToolResults (steps : List Step) : List ToolResult :=
  steps.foldl (fun acc step => acc ++ step.toolResults) []

/-- `steps.flatMap((step) => step.toolCalls)`. -/
def flatToolCalls (steps : List Step) : List ToolCall :=
  steps.foldl (fun acc step => acc ++ step.toolCalls) []

/-- The reactive clarification scan: the first `routeToAgent` tool result
whose output carries clarification items. -/
def findRouteClarify (steps : List Step) : Option ToolResultOutput :=
  match (flatToolResults steps).find?
      (fun tr =>
        tr.toolName == TOOL_ROUTE_TO_AGENT &&
        (match tr.output with
         | some o => !o.items.isEmpty
         | none => false)) with
  | some tr => tr.output
  | none => none

/-- Whether the caught value is an abort
(`errName === "AbortError"`). -/
def isAbortError : Thrown → Bool
  | .error e => e.name == "AbortError"
  | .nonError _ => false

/-- The environment of one streaming orchestrator request: the request
fields and the outcomes of the external calls the handler awaits. -/
structure SseEnv where
  agentName : String
  convId : String
  message : String
  autonomous : Bool
  approvedPlan : Option (List TaskSpec)
  planOutcome : Except Thrown PlanResult
  planUsage : UsageInfo
  planBusEvents : List String
  runTask : TaskSpec → Settled TaskResult
  taskBusEvents : List String
  synthOutcome : SynthesisOutcome
  overallElapsed : Nat
  abortedAtCatch : Bool

/-- What one handler body produced: its wire events in order, the tasks it
passed to the task executor, and whether it returned or threw. -/
structure BodyResult where
  events : List WireEvent
  executed : List TaskSpec
  outcome : Except Thrown Unit

/-- The `approvedPlan` shortcut body of `buildSseHandler` (executes the
pre-approved tasks, synthesizes, reports usage without a planning stage). -/
def sseApprovedBody (env : SseEnv) (plan : List TaskSpec) : BodyResult :=
  let tasks := plan
  let ev0 : List WireEvent :=
    [⟨"agent:start", .agentData env.agentName⟩,
     ⟨"status", .statusData "executing-tasks" "Executing approved plan tasks"⟩]
  let results := executeTasksSettled env.runTask tasks
  let responseSkills := collectResponseSkills results
  let ev1 := ev0 ++ bridgeBusEvents env.taskBusEvents ++
    synthesizeStreamingEvents env.agentName responseSkills env.synthOutcome
  match env.synthOutcome.result with
  | .error t => ⟨ev1, tasks, .error t⟩
  | .ok synthUsage =>
    let subAgentUsages := results.filterMap (fun r => r.result.usage)
    let totalUsage :=
      { mergeUsage (subAgentUsages ++ [synthUsage]) with durationMs := env.overallElapsed }
    ⟨ev1 ++
      [⟨"agent:end", .agentData env.agentName⟩,
       ⟨"done", .doneData
         { toolsUsed := dedup (results.foldl (fun acc r => acc ++ r.result.toolsUsed) []),
           conversationId := env.convId,
           tasks := some (results.map (fun r =>
             ⟨r.agent, r.query, strSlice r.result.response SUMMARY_LENGTH_LIMIT⟩)),
           usage := totalUsage }⟩],
      tasks, .ok ()⟩

/-- The main body of `buildSseHandler`: plan, reactive clarification check,
task-plan branch (approval gate in non-autonomous mode), route branch,
direct branch. -/
def sseMainBody (env : SseEnv) : BodyResult :=
  let ev0 : List WireEvent :=
    [⟨"agent:start", .agentData env.agentName⟩,
     ⟨"status", .statusData "thinking" "Analyzing query and routing"⟩]
  match env.planOutcome with
  | .error t => ⟨ev0 ++ bridgeBusEvents env.planBusEvents, [], .error t⟩
  | .ok plan =>
    let ev1 := ev0 ++ bridgeBusEvents env.planBusEvents
    match (if env.autonomous then none else findRouteClarify plan.steps) with
    | some output =>
      let totalUsage :=
        match output.usage with
        | some u => mergeUsage [env.planUsage, u]
        | none => env.planUsage
      let totalUsage := { totalUsage with durationMs := env.overallElapsed }
      ⟨ev1 ++
        [⟨"ask:user", .askData output.items⟩,
         ⟨"agent:end", .agentData env.agentName⟩,
         ⟨"done", .doneData
           { toolsUsed := [TOOL_ROUTE_TO_AGENT], conversationId := env.convId,
             awaitingResponse := true, items := some output.items,
             usage := totalUsage }⟩],
        [], .ok ()⟩
    | none =>
      let tasks := collectTasksFromSteps plan.steps
      if tasks.length > 0 then
        let evPlan := ev1 ++
          [⟨"status", .statusData "planning" "Building task plan"⟩,
           ⟨"agent:plan", .planData tasks⟩]
        if env.autonomous = false then
          ⟨evPlan ++
            [⟨"agent:end", .agentData env.agentName⟩,
             ⟨"done", .doneData
               { toolsUsed := [TOOL_CREATE_TASK], conversationId := env.convId,
                 awaitingApproval := true, tasksPlanned := some tasks,
                 usage := { env.planUsage with durationMs := env.overallElapsed } }⟩],
            [], .ok ()⟩
        else
          let results := executeTasksSettled env.runTask tasks
          let responseSkills := collectResponseSkills results
          let evExec := evPlan ++
            [⟨"status", .statusData "executing-tasks" "Executing parallel tasks"⟩] ++
            bridgeBusEvents env.taskBusEvents ++
            synthesizeStreamingEvents env.agentName responseSkills env.synthOutcome
          match env.synthOutcome.result with
          | .error t => ⟨evExec, tasks, .error t⟩
          | .ok synthUsage =>
            let subAgentUsages := results.filterMap (fun r => r.result.usage)
            let totalUsage :=
              { mergeUsage (env.planUsage :: subAgentUsages ++ [synthUsage]) with
                  durationMs := env.overallElapsed }
            ⟨evExec ++
              [⟨"agent:end", .agentData env.agentName⟩,
               ⟨"done", .doneData
                 { toolsUsed :=
                     dedup (results.foldl (fun acc r => acc ++ r.result.toolsUsed) []),
                   conversationId := env.convId,
                   tasks := some (results.map (fun r =>
                     ⟨r.agent, r.query, strSlice r.result.response SUMMARY_LENGTH_LIMIT⟩)),
                   usage := totalUsage }⟩],
              tasks, .ok ()⟩
      else
        let routeResults :=
          (flatToolResults plan.steps).filter (fun tr => tr.toolName == TOOL_ROUTE_TO_AGENT)
        if routeResults.length > 0 then
          let responseSkills := dedup (routeResults.foldl
            (fun acc tr => acc ++ (tr.output.map (fun o => o.responseSkills)).getD []) [])
          let evSynth := ev1 ++
            synthesizeStreamingEvents env.agentName responseSkills env.synthOutcome
          match env.synthOutcome.result with
          | .error t => ⟨evSynth, [], .error t⟩
          | .ok synthUsage =>
            let routeToolsUsed := routeResults.foldl
              (fun acc tr => acc ++ (tr.output.map (fun o => o.toolsUsed)).getD []) []
            let subAgentUsages := routeResults.filterMap (fun tr => tr.output.bind (·.usage))
            let totalUsage :=
              { mergeUsage (env.planUsage :: subAgentUsages ++ [synthUsage]) with
                  durationMs := env.overallElapsed }
            ⟨evSynth ++
              [⟨"agent:end", .agentData env.agentName⟩,
               ⟨"done", .doneData
                 { toolsUsed := dedup (TOOL_ROUTE_TO_AGENT :: routeToolsUsed),
                   conversationId := env.convId, usage := totalUsage }⟩],
              [], .ok ()⟩
        else
          let evText :=
            if plan.text = "" then ([] : List WireEvent)
            else [⟨"text-delta", .textData plan.text⟩]
          ⟨ev1 ++ evText ++
            [⟨"agent:end", .agentData env.agentName⟩,
             ⟨"done", .doneData
               { toolsUsed := dedup ((flatToolCalls plan.steps).map (fun tc => tc.toolName)),
                 conversationId := env.convId,
                 usage := { env.planUsage with durationMs := env.overallElapsed } }⟩],
            [], .ok ()⟩

/-- Body selection of `buildSseHandler`: the approved-plan shortcut runs
when a non-empty pre-approved plan is supplied. -/
def sseBodyOf (env : SseEnv) : BodyResult :=
  match env.approvedPlan with
  | some plan => if plan.length > 0 then sseApprovedBody env plan else sseMainBody env
  | none => sseMainBody env

/-- Did this connection end in the cancellation path of the catch block? -/
def bodyAborted (env : SseEnv) : Bool :=
  match (sseBodyOf env).outcome with
  | .error t => isAbortError t || env.abortedAtCatch
  | .ok _ => false

/-- The full event trace of one streaming connection, and the tasks the
handler executed: `session:start`, the body's events, and the catch block's
single terminal `cancelled` or `error` event when the body threw. -/
def sseHandler (env : SseEnv) : List WireEvent × List TaskSpec :=
  let body := sseBodyOf env
  let lead := (⟨"session:start", .conv env.convId⟩ : WireEvent) :: body.events
  match body.outcome with
  | .ok _ => (lead, body.executed)
  | .error t =>
    if isAbortError t || env.abortedAtCatch then
      (lead ++ [⟨"cancelled", .conv env.convId⟩], body.executed)
    else
      (lead ++ [⟨"error", .errorData env.convId (thrownMessage t)⟩], body.executed)

/-- `generateConversationId(cid)`: the caller's id, else a fresh one. -/
def generateConversationId (cid : Option String) (fresh : String) : String := cid.getD fresh

/-- The environment of one non-streaming (JSON) orchestrator request. -/
structure JsonEnv where
  agentName : String
  cid : Option String
  message : String
  autonomous : Bool
  approvedPlan : Option (List TaskSpec)
  planOutcome : Except Thrown PlanResult
  planUsage : UsageInfo
  runTask : TaskSpec → Settled TaskResult
  synthOutcome : Except Thrown (String × UsageInfo)
  elapsed : Nat

/-- The JSON response object of `buildJsonHandler`. -/
structure JsonResponse where
  response : String
  toolsUsed : List String := []
  agentsUsed : Option (List String) := none
  tasks : Option (List TaskSummary) := none
  conversationId : String
  usage : UsageInfo
  deriving Repr, DecidableEq

/-- The planning path of `buildJsonHandler` (no pre-approved plan): the task
branch executes any declared tasks — the handler reads the `autonomous` flag
but never consults it here, and it has no awaiting-approval response shape —
then the route / direct branch.  The handler has no try/catch: a thrown
planning or synthesis error propagates (`.error`). -/
def jsonMainPath (env : JsonEnv) (freshId : String) :
    Except Thrown JsonResponse × List TaskSpec :=
  match env.planOutcome with
  | .error t => (.error t, [])
  | .ok plan =>
    let tasks := collectTasksFromSteps plan.steps
    if tasks.length > 0 then
      let results := executeTasksSettled env.runTask tasks
      match env.synthOutcome with
      | .error t => (.error t, tasks)
      | .ok (text, synthUsage) =>
        let orchestratorUsage := env.planUsage
        let subAgentUsages := results.filterMap (fun r => r.result.usage)
        let totalUsage :=
          { mergeUsage (orchestratorUsage :: subAgentUsages ++ [synthUsage]) with
              durationMs := env.elapsed }
        (.ok { response := text,
               toolsUsed := dedup (results.foldl (fun acc r => acc ++ r.result.toolsUsed) []),
               agentsUsed := some (dedup (results.map (fun r => r.agent))),
               tasks := some (results.map (fun r =>
                 ⟨r.agent, r.query, strSlice r.result.response SUMMARY_LENGTH_LIMIT⟩)),
               conversationId := generateConversationId env.cid freshId,
               usage := totalUsage }, tasks)
    else
      let orchestratorUsage := env.planUsage
      let routeResultUsages :=
        ((flatToolResults plan.steps).filter
          (fun tr => tr.toolName == TOOL_ROUTE_TO_AGENT)).filterMap
          (fun tr => tr.output.bind (fun o => o.usage))
      let toolsUsed := (flatToolCalls plan.steps).map (fun tc => tc.toolName)
      let agentsUsed := (flatToolCalls plan.steps).filterMap
        (fun tc =>
          match tc.input with
          | some i =>
            match i.agent with
            | some a => if a = "" then none else some a
            | none => none
          | none => none)
      (.ok { response := plan.text,
             toolsUsed := dedup toolsUsed,
             agentsUsed := some (dedup agentsUsed),
             conversationId := generateConversationId env.cid freshId,
             usage :=
               if routeResultUsages.length > 0 then
                 mergeUsage (orchestratorUsage :: routeResultUsages)
               else orchestratorUsage }, [])

/-- `buildJsonHandler`: the approved-plan branch executes the supplied tasks
directly; otherwise the planning path runs. -/
def jsonHandler (env : JsonEnv) (freshId : String) :
    Except Thrown JsonResponse × List TaskSpec :=
  match env.approvedPlan with
  | some plan =>
    if plan.length > 0 then
      let tasks := plan
      let results := executeTasksSettled env.runTask tasks
      match env.synthOutcome with
      | .error t => (.error t, tasks)
      | .ok (text, synthUsage) =>
        let subAgentUsages := results.filterMap (fun r => r.result.usage)
        let totalUsage :=
          { mergeUsage (subAgentUsages ++ [synthUsage]) with durationMs := env.elapsed }
        (.ok { response := text,
               toolsUsed := dedup (results.foldl (fun acc r => acc ++ r.result.toolsUsed) []),
               tasks := some (results.map (fun r =>
                 ⟨r.agent, r.query, strSlice r.result.response SUMMARY_LENGTH_LIMIT⟩)),
               conversationId := generateConversationId env.cid freshId,
               usage := totalUsage }, tasks)
    else jsonMainPath env freshId
  | none => jsonMainPath env freshId

/-- Event names a handler body may write: everything except the two terminal
names written by the catch block. -/
def nonTerminalEvent (e : WireEvent) : Prop :=
  e.name ≠ "cancelled" ∧ e.name ≠ "error"

theorem busLookup_nonTerminal (n : String) (h : FORWARDED_BUS_EVENTS.contains n = true) :
    busLookup n ≠ "cancelled" ∧ busLookup n ≠ "error" := by
  have hmem : n ∈ FORWARDED_BUS_EVENTS := by simpa using h
  fin_cases hmem <;> decide

theorem bridgeBusEvents_nonTerminal (l : List String) :
    ∀ e ∈ bridgeBusEvents l, nonTerminalEvent e := by
  intro e he
  unfold bridgeBusEvents at he
  obtain ⟨n, hn, rfl⟩ := List.mem_map.mp he
  exact busLookup_nonTerminal n (List.mem_filter.mp hn).2

theorem synthesizeStreamingEvents_nonTerminal (agentName : String) (skillNames : List String)
    (synth : SynthesisOutcome) :
    ∀ e ∈ synthesizeStreamingEvents agentName skillNames synth, nonTerminalEvent e := by
  intro e he
  unfold synthesizeStreamingEvents at he
  rcases List.mem_append.mp he with he | he
  · rcases List.mem_append.mp he with he | he
    · split at he
      · fin_cases he <;> simp [nonTerminalEvent]
      · simp at he
    · fin_cases he <;> simp [nonTerminalEvent]
  · obtain ⟨t, ht, rfl⟩ := List.mem_map.mp he
    simp [nonTerminalEvent]

theorem sseApprovedBody_nonTerminal (env : SseEnv) (plan : List TaskSpec) :
    ∀ e ∈ (sseApprovedBody env plan).events, nonTerminalEvent e := by
  intro e he
  unfold sseApprovedBody at he
  split at he <;> dsimp only at he
  · rcases List.mem_append.mp he with he | he
    · rcases List.mem_append.mp he with he | he
      · fin_cases he <;> simp [nonTerminalEvent]
      · exact bridgeBusEvents_nonTerminal _ e he
    · exact synthesizeStreamingEvents_nonTerminal _ _ _ e he
  · rcases List.mem_append.mp he with he | he
    · rcases List.mem_append.mp he with he | he
      · rcases List.mem_append.mp he with he | he
        · fin_cases he <;> simp [nonTerminalEvent]
        · exact bridgeBusEvents_nonTerminal _ e he
      · exact synthesizeStreamingEvents_nonTerminal _ _ _ e he
    · fin_cases he <;> simp [nonTerminalEvent]

theorem sseMainBody_nonTerminal (env : SseEnv) :
    ∀ e ∈ (sseMainBody env).events, nonTerminalEvent e := by
  unfold sseMainBody
  repeat' split
  all_goals
    intro e he
    repeat'
      first
      | split at he
      | simp only [List.append_eq, List.mem_append, List.mem_cons, List.not_mem_nil,
          or_false, false_or] at he
    repeat' rcases he with he | he
  all_goals
    first
    | exact bridgeBusEvents_nonTerminal _ e he
    | exact synthesizeStreamingEvents_nonTerminal _ _ _ e he
    | (subst he; simp [nonTerminalEvent]; done)
    | (simp [nonTerminalEvent]; done)
    | simp at he

theorem sseBody_nonTerminal (env : SseEnv) :
    ∀ e ∈ (sseBodyOf env).events, nonTerminalEvent e := by
  unfold sseBodyOf
  split
  · split
    · exact sseApprovedBody_nonTerminal env _
    · exact sseMainBody_nonTerminal env
  · exact sseMainBody_nonTerminal env

/-- Claim C4: whenever a streaming connection ends in cancellation (the body
threw an `AbortError`, or the request's abort signal was set when the catch
block ran), the trace ends with exactly one `cancelled` event, nothing
follows it, and no `error` event is emitted. -/
theorem C4_cancellation_terminal :
    ∀ env : SseEnv, bodyAborted env = true →
      (sseHandler env).1.getLast? = some ⟨"cancelled", .conv env.convId⟩ ∧
      ((sseHandler env).1.filter (fun e => e.name == "cancelled")).length = 1 ∧
      ((sseHandler env).1.filter (fun e => e.name == "error")).length = 0 := by
  intro env h
  unfold bodyAborted at h
  cases ho : (sseBodyOf env).outcome with
  | ok _ => rw [ho] at h; exact absurd h (by simp)
  | error t =>
    rw [ho] at h
    dsimp only at h
    simp only [sseHandler]
    rw [ho]
    dsimp only
    rw [if_pos h]
    have hsafe := sseBody_nonTerminal env
    have hlead : ∀ p : WireEvent → Bool,
        p ⟨"session:start", .conv env.convId⟩ = false →
        (∀ a ∈ (sseBodyOf env).events, p a = false) →
        ((⟨"session:start", .conv env.convId⟩ :: (sseBodyOf env).events).filter p) = [] := by
      intro p hp hall
      rw [List.filter_eq_nil_iff]
      intro a ha
      rcases List.mem_cons.mp ha with rfl | ha
      · simp [hp]
      · simp [hall a ha]
    refine ⟨List.getLast?_concat _, ?_, ?_⟩
    · rw [List.filter_append, List.length_append]
      rw [hlead _ rfl (fun a ha => by simpa using (hsafe a ha).1)]
      simp
    · rw [List.filter_append, List.length_append]
      rw [hlead _ rfl (fun a ha => by simpa using (hsafe a ha).2)]
      simp

/-! Concrete request runs used to instantiate the handler theorems. -/

def demoPlanUsage : UsageInfo := ⟨100, 50, 150, some 1, 100⟩

def demoTaskUsage1 : UsageInfo := ⟨10, 5, 15, none, 200⟩

def demoTaskUsage2 : UsageInfo := ⟨20, 10, 30, some 2, 250⟩

def demoSynthUsage : UsageInfo := ⟨1, 2, 3, some 3, 300⟩

/-- A planning result declaring two parallel tasks. -/
def demoPlan : PlanResult :=
  { steps := [{ toolCalls :=
      [{ toolName := "createTask", input := some { agent := some "a1", query := some "q1" } },
       { toolName := "createTask", input := some { agent := some "a2", query := some "q2" } }] }] }

def demoRunTask : TaskSpec → Settled TaskResult := fun t =>
  if t.agent = "a1" then
    .fulfilled
      { agent := t.agent, query := t.query,
        result := { response := "r1", toolsUsed := ["x"], usage := some demoTaskUsage1 } }
  else
    .fulfilled
      { agent := t.agent, query := t.query,
        result := { response := "r2", toolsUsed := ["y"], usage := some demoTaskUsage2 } }

def demoSseEnv : SseEnv :=
  { agentName := "orch", convId := "c1", message := "m", autonomous := true,
    approvedPlan := none, planOutcome := .ok demoPlan, planUsage := demoPlanUsage,
    planBusEvents := [], runTask := demoRunTask, taskBusEvents := ["delegate:start"],
    synthOutcome := { chunks := ["hello ", "world"], result := .ok demoSynthUsage },
    overallElapsed := 1000, abortedAtCatch := false }

def demoSseEnvNonAuto : SseEnv := { demoSseEnv with autonomous := false }

def demoSseEnvApproved : SseEnv :=
  { demoSseEnv with approvedPlan := some [⟨"a1", "q1", none⟩] }

def demoSseEnvAborted : SseEnv :=
  { demoSseEnv with planOutcome := .error (.error ⟨"AbortError", "Aborted", none⟩) }

def demoJsonEnv : JsonEnv :=
  { agentName := "orch", cid := some "c1", message := "m", autonomous := false,
    approvedPlan := none, planOutcome := .ok demoPlan, planUsage := demoPlanUsage,
    runTask := demoRunTask, synthOutcome := .ok ("s", demoSynthUsage), elapsed := 77 }

/-- Witness: a request whose planning call threw `AbortError` ends in a
single terminal `cancelled` event. -/
theorem C4_cancellation_terminal_witness :
    (sseHandler demoSseEnvAborted).1.getLast? =
      some ⟨"cancelled", .conv demoSseEnvAborted.convId⟩ ∧
    ((sseHandler demoSseEnvAborted).1.filter (fun e => e.name == "cancelled")).length = 1 ∧
    ((sseHandler demoSseEnvAborted).1.filter (fun e => e.name == "error")).length = 0 :=
  C4_cancellation_terminal demoSseEnvAborted (by decide)

/-- Claim C3 counterexample: the JSON handler, given `autonomous = false` and
a freshly planned task list, executes the tasks anyway and returns an
ordinary response — it has no awaiting-approval path and never consults the
flag. -/
theorem getLast?_cons_append_cons {α : Type} (a : α) (l₁ : List α) (b : α) (l₂ : List α) :
    (a :: (l₁ ++ b :: l₂)).getLast? = (b :: l₂).getLast? := by
  rw [show a :: (l₁ ++ b :: l₂) = (a :: l₁) ++ b :: l₂ from rfl, List.getLast?_append_cons]

theorem C3_counterexample_json_executes_nonautonomous :
    demoJsonEnv.autonomous = false ∧
    collectTasksFromSteps demoPlan.steps = [⟨"a1", "q1", none⟩, ⟨"a2", "q2", none⟩] ∧
    (jsonHandler demoJsonEnv "fresh").2 = [⟨"a1", "q1", none⟩, ⟨"a2", "q2", none⟩] ∧
    (∃ r, (jsonHandler demoJsonEnv "fresh").1 = .ok r) := by
  exact ⟨rfl, by decide, by decide, ⟨_, rfl⟩⟩

/-- Claim C3 (amended): in the streaming handler, a declared task plan is
returned for approval (an `agent:plan` event and a terminal `done` with
`awaitingApproval`) and nothing is executed when `autonomous` is false, while
with `autonomous` true, or with a pre-approved plan, every declared task is
handed to the task executor; each task settles independently
(`Promise.allSettled`), a rejected task becoming a "Task failed" error result
in its own slot.  The JSON handler, however, executes freshly planned tasks
regardless of the `autonomous` flag. -/
theorem C3_task_plan_execution :
    (∀ (env : SseEnv) (plan : PlanResult),
        env.approvedPlan = none → env.autonomous = false →
        env.planOutcome = .ok plan →
        findRouteClarify plan.steps = none →
        collectTasksFromSteps plan.steps ≠ [] →
        (sseHandler env).2 = [] ∧
        (⟨"agent:plan", .planData (collectTasksFromSteps plan.steps)⟩ : WireEvent) ∈
          (sseHandler env).1 ∧
        (sseHandler env).1.getLast? = some
          ⟨"done", .doneData
            { toolsUsed := [TOOL_CREATE_TASK], conversationId := env.convId,
              awaitingApproval := true,
              tasksPlanned := some (collectTasksFromSteps plan.steps),
              usage := { env.planUsage with durationMs := env.overallElapsed } }⟩) ∧
    (∀ (env : SseEnv) (plan : PlanResult),
        env.approvedPlan = none → env.autonomous = true →
        env.planOutcome = .ok plan →
        collectTasksFromSteps plan.steps ≠ [] →
        (sseHandler env).2 = collectTasksFromSteps plan.steps) ∧
    (∀ (env : SseEnv) (plan : List TaskSpec),
        env.approvedPlan = some plan → plan ≠ [] →
        (sseHandler env).2 = plan) ∧
    (∀ (env : JsonEnv) (plan : PlanResult) (freshId : String),
        env.approvedPlan = none → env.planOutcome = .ok plan →
        (jsonHandler env freshId).2 = collectTasksFromSteps plan.steps) ∧
    (∀ (runTask : TaskSpec → Settled TaskResult) (tasks : List TaskSpec),
        (executeTasksSettled runTask tasks).length = tasks.length) ∧
    (∀ (runTask : TaskSpec → Settled TaskResult) (tasks : List TaskSpec) (i : Nat),
        (executeTasksSettled runTask tasks)[i]? =
        (tasks[i]?).map (settleTask runTask)) ∧
    (∀ (runTask : TaskSpec → Settled TaskResult) (t : TaskSpec) (reason : Thrown),
        runTask t = .rejected reason →
        settleTask runTask t =
          { agent := t.agent, query := t.query,
            result := { response := "Task failed: " ++ rejectionMessage reason,
                        toolsUsed := [] } }) := by
  refine ⟨?_, ?_, ?_, ?_, ?_, ?_, ?_⟩
  · intro env plan happ hauto hplan hclar hne
    have hlen : 0 < (collectTasksFromSteps plan.steps).length := List.length_pos.mpr hne
    refine ⟨?_, ?_, ?_⟩ <;>
      simp [sseHandler, sseBodyOf, sseMainBody, happ, hauto, hplan, hclar, hlen,
        List.getLast?_cons_cons, List.getLast?_append_cons, getLast?_cons_append_cons]
  · intro env plan happ hauto hplan hne
    have hlen : 0 < (collectTasksFromSteps plan.steps).length := List.length_pos.mpr hne
    cases hs : env.synthOutcome.result with
    | error t =>
      simp only [sseHandler, sseBodyOf, sseMainBody, happ, hauto, hplan, hs, hlen]
      simp
      split <;> rfl
    | ok u =>
      simp [sseHandler, sseBodyOf, sseMainBody, happ, hauto, hplan, hs, hlen]
  · intro env plan happ hne
    have hlen : 0 < plan.length := List.length_pos.mpr hne
    cases hs : env.synthOutcome.result with
    | error t =>
      simp only [sseHandler, sseBodyOf, sseApprovedBody, happ, hs, hlen]
      simp [hlen]
      split <;> rfl
    | ok u =>
      simp [sseHandler, sseBodyOf, sseApprovedBody, happ, hs, hlen]
  · intro env plan freshId happ hplan
    by_cases hl : 0 < (collectTasksFromSteps plan.steps).length
    · cases hsy : env.synthOutcome <;>
        simp [jsonHandler, jsonMainPath, happ, hplan, hl, hsy]
    · have hnil : collectTasksFromSteps plan.steps = [] := by
        cases h : collectTasksFromSteps plan.steps with
        | nil => rfl
        | cons a l => rw [h] at hl; simp at hl
      simp [jsonHandler, jsonMainPath, happ, hplan, hl, hnil]
  · intro runTask tasks
    simp [executeTasksSettled]
  · intro runTask tasks i
    simp [executeTasksSettled]
  · intro runTask t reason h
    simp [settleTask, h]

/-- Witness: the four handler behaviours and the isolation of a rejected
task at concrete runs. -/
theorem C3_task_plan_execution_witness :
    (sseHandler demoSseEnvNonAuto).2 = [] ∧
    (sseHandler demoSseEnv).2 = [⟨"a1", "q1", none⟩, ⟨"a2", "q2", none⟩] ∧
    (sseHandler demoSseEnvApproved).2 = [⟨"a1", "q1", none⟩] ∧
    (jsonHandler demoJsonEnv "fresh").2 = [⟨"a1", "q1", none⟩, ⟨"a2", "q2", none⟩] ∧
    executeTasksSettled (fun _ => .rejected (.error ⟨"Error", "boom", none⟩))
        [⟨"a1", "q1", none⟩] =
      [{ agent := "a1", query := "q1",
         result := { response := "Task failed: boom", toolsUsed := [] } }] :=
  ⟨(C3_task_plan_execution.1 demoSseEnvNonAuto demoPlan rfl rfl rfl (by decide) (by decide)).1,
   by rw [C3_task_plan_execution.2.1 demoSseEnv demoPlan rfl rfl rfl (by decide)]; decide,
   C3_task_plan_execution.2.2.1 demoSseEnvApproved [⟨"a1", "q1", none⟩] rfl (by decide),
   by rw [C3_task_plan_execution.2.2.2.1 demoJsonEnv demoPlan "fresh" rfl rfl]; decide,
   by
     have h := C3_task_plan_execution.2.2.2.2.2.2
       (fun _ => Settled.rejected (.error ⟨"Error", "boom", none⟩))
       ⟨"a1", "q1", none⟩ (.error ⟨"Error", "boom", none⟩) rfl
     simp only [executeTasksSettled, List.map_cons, List.map_nil, h]
     decide⟩

/-- The usage carried by the terminal `done` event, when the trace ends in
one. -/
def doneUsageOf (events : List WireEvent) : Option UsageInfo :=
  match events.getLast? with
  | some e =>
    match e.data with
    | .doneData d => some d.usage
    | _ => none
  | none => none

theorem doneUsageOf_cons (a : WireEvent) (l : List WireEvent) (h : l ≠ []) :
    doneUsageOf (a :: l) = doneUsageOf l := by
  cases l with
  | nil => exact absurd rfl h
  | cons b m => simp [doneUsageOf, List.getLast?_cons_cons]

theorem doneUsageOf_append (l₁ l₂ : List WireEvent) (h : l₂ ≠ []) :
    doneUsageOf (l₁ ++ l₂) = doneUsageOf l₂ := by
  unfold doneUsageOf
  rw [List.getLast?_append_of_ne_nil l₁ h]

theorem doneUsageOf_done_singleton (d : DonePayload) :
    doneUsageOf [⟨"done", .doneData d⟩] = some d.usage := rfl

theorem mergeStep_durationMs (a u : UsageInfo) :
    (mergeStep a u).durationMs = max a.durationMs u.durationMs := by
  simp only [mergeStep]
  split <;> omega

theorem mergeStep_cost (a u : UsageInfo) :
    (mergeStep a u).cost = costMergeSpec a.cost u.cost := by
  cases ha : a.cost <;> cases hu : u.cost <;> simp [mergeStep, costMergeSpec, ha, hu]

theorem mergeUsage_foldl (l : List UsageInfo) : ∀ acc : UsageInfo,
    (l.foldl mergeStep acc).inputTokens =
      acc.inputTokens + (l.map (fun u => u.inputTokens)).sum ∧
    (l.foldl mergeStep acc).outputTokens =
      acc.outputTokens + (l.map (fun u => u.outputTokens)).sum ∧
    (l.foldl mergeStep acc).totalTokens =
      acc.totalTokens + (l.map (fun u => u.totalTokens)).sum ∧
    (l.foldl mergeStep acc).durationMs =
      (l.map (fun u => u.durationMs)).foldl max acc.durationMs ∧
    (l.foldl mergeStep acc).cost =
      (l.map (fun u => u.cost)).foldl costMergeSpec acc.cost := by
  induction l with
  | nil => intro acc; simp
  | cons u l ih =>
    intro acc
    obtain ⟨h1, h2, h3, h4, h5⟩ := ih (mergeStep acc u)
    refine ⟨?_, ?_, ?_, ?_, ?_⟩
    · rw [List.foldl_cons, h1]; simp [mergeStep]; omega
    · rw [List.foldl_cons, h2]; simp [mergeStep]; omega
    · rw [List.foldl_cons, h3]; simp [mergeStep]; omega
    · rw [List.foldl_cons, h4, mergeStep_durationMs]; simp
    · rw [List.foldl_cons, h5, mergeStep_cost]; simp

/-- Claim C7 counterexample: in a run whose stages have durations 100 (plan),
200 and 250 (tasks), and 300 (synthesis), but whose overall wall clock took
1000 ms, the `done` event reports `durationMs = 1000`, not the per-stage
maximum 300 — the handler overwrites the merged duration with the elapsed
time of the whole request. -/
theorem C7_counterexample_duration_is_elapsed :
    (doneUsageOf (sseHandler demoSseEnv).1).map (fun u => u.durationMs) = some 1000 ∧
    (doneUsageOf (sseHandler demoSseEnv).1).map (fun u => u.totalTokens) = some 198 ∧
    (mergeUsage [demoPlanUsage, demoTaskUsage1, demoTaskUsage2, demoSynthUsage]).durationMs
      = 300 ∧
    (1000 : Nat) ≠ 300 := by
  exact ⟨by decide, by decide, by decide, by decide⟩

/-- Claim C7 (amended): the terminal usage of a multi-stage streaming request
merges the planning, per-task and synthesis usages — token fields are the
sums across stages and the cost is the null-skipping sum — but its
`durationMs` is overwritten with the wall-clock elapsed time of the whole
request, not the per-stage maximum. -/
theorem C7_usage_aggregation :
    (∀ (env : SseEnv) (plan : PlanResult) (synthUsage : UsageInfo),
        env.approvedPlan = none → env.autonomous = true →
        env.planOutcome = .ok plan →
        collectTasksFromSteps plan.steps ≠ [] →
        env.synthOutcome.result = .ok synthUsage →
        doneUsageOf (sseHandler env).1 =
          some { mergeUsage (env.planUsage ::
                   (executeTasksSettled env.runTask (collectTasksFromSteps plan.steps)).filterMap
                     (fun r => r.result.usage) ++ [synthUsage]) with
                 durationMs := env.overallElapsed }) ∧
    (∀ (env : SseEnv) (plan : List TaskSpec) (synthUsage : UsageInfo),
        env.approvedPlan = some plan → plan ≠ [] →
        env.synthOutcome.result = .ok synthUsage →
        doneUsageOf (sseHandler env).1 =
          some { mergeUsage ((executeTasksSettled env.runTask plan).filterMap
                     (fun r => r.result.usage) ++ [synthUsage]) with
                 durationMs := env.overallElapsed }) ∧
    (∀ l, (mergeUsage l).inputTokens = (l.map (fun u => u.inputTokens)).sum) ∧
    (∀ l, (mergeUsage l).outputTokens = (l.map (fun u => u.outputTokens)).sum) ∧
    (∀ l, (mergeUsage l).totalTokens = (l.map (fun u => u.totalTokens)).sum) ∧
    (∀ l, (mergeUsage l).cost = (l.map (fun u => u.cost)).foldl costMergeSpec none) ∧
    (∀ l, (mergeUsage l).durationMs = (l.map (fun u => u.durationMs)).foldl max 0) := by
  refine ⟨?_, ?_, ?_, ?_, ?_, ?_, ?_⟩
  · intro env plan synthUsage happ hauto hplan hne hs
    have hlen : 0 < (collectTasksFromSteps plan.steps).length := List.length_pos.mpr hne
    simp [sseHandler, sseBodyOf, sseMainBody, happ, hauto, hplan, hs, hlen,
      doneUsageOf_cons, doneUsageOf_append, doneUsageOf_done_singleton]
  · intro env plan synthUsage happ hne hs
    have hlen : 0 < plan.length := List.length_pos.mpr hne
    simp [sseHandler, sseBodyOf, sseApprovedBody, happ, hs, hlen,
      doneUsageOf_cons, doneUsageOf_append, doneUsageOf_done_singleton]
  · intro l
    simpa [mergeUsage] using (mergeUsage_foldl l
      { inputTokens := 0, outputTokens := 0, totalTokens := 0,
        cost := none, durationMs := 0 }).1
  · intro l
    simpa [mergeUsage] using (mergeUsage_foldl l
      { inputTokens := 0, outputTokens := 0, totalTokens := 0,
        cost := none, durationMs := 0 }).2.1
  · intro l
    simpa [mergeUsage] using (mergeUsage_foldl l
      { inputTokens := 0, outputTokens := 0, totalTokens := 0,
        cost := none, durationMs := 0 }).2.2.1
  · intro l
    simpa [mergeUsage] using (mergeUsage_foldl l
      { inputTokens := 0, outputTokens := 0, totalTokens := 0,
        cost := none, durationMs := 0 }).2.2.2.2
  · intro l
    simpa [mergeUsage] using (mergeUsage_foldl l
      { inputTokens := 0, outputTokens := 0, totalTokens := 0,
        cost := none, durationMs := 0 }).2.2.2.1

/-- Witness: the aggregation theorem applied at the concrete runs. -/
theorem C7_usage_aggregation_witness :
    doneUsageOf (sseHandler demoSseEnv).1 =
      some { mergeUsage (demoSseEnv.planUsage ::
               (executeTasksSettled demoSseEnv.runTask
                 (collectTasksFromSteps demoPlan.steps)).filterMap
                 (fun r => r.result.usage) ++ [demoSynthUsage]) with
             durationMs := demoSseEnv.overallElapsed } ∧
    doneUsageOf (sseHandler demoSseEnvApproved).1 =
      some { mergeUsage ((executeTasksSettled demoSseEnvApproved.runTask
                 [⟨"a1", "q1", none⟩]).filterMap
                 (fun r => r.result.usage) ++ [demoSynthUsage]) with
             durationMs := demoSseEnvApproved.overallElapsed } :=
  ⟨C7_usage_aggregation.1 demoSseEnv demoPlan demoSynthUsage rfl rfl rfl (by decide) rfl,
   C7_usage_aggregation.2.1 demoSseEnvApproved [⟨"a1", "q1", none⟩] demoSynthUsage
     rfl (by decide) rfl⟩

end KitnRegistry
